import Mathlib

/-!
Verification of the Overseer front end (hiring-data fairness visualizer).

Each section shallowly embeds one part of the TypeScript/JavaScript source:
* JavaScript number arithmetic is modelled over `ℚ` (exact rationals); the
  JavaScript remainder operator `%` (sign of the dividend, truncated
  quotient) is `jsFmod`.
* `undefined` / `null` values are modelled with `Option`.
* Sequential `await` chains with `try`/`catch` are modelled as explicit
  executors over lists of outcomes.
-/

namespace Overseer

/-- Truncation toward zero of a rational, as JavaScript computes integer
quotients for the `%` operator. -/
def jsTrunc (q : ℚ) : ℤ :=
  if 0 ≤ q then ⌊q⌋ else -⌊-q⌋

/-- The JavaScript remainder operator `a % b`: `a - b * trunc(a / b)`.
The result has the sign of the dividend `a`. -/
def jsFmod (a b : ℚ) : ℚ :=
  a - b * jsTrunc (a / b)

/-!
## HSB → RGB conversion (`hsbToRgb` in the scene components)

Source (identical in two revisions of the scene component):
```js
const hsbToRgb = (h, s, b) => {
  h = h % 360; s = s / 100; b = b / 100;
  let c = b * s;
  let x = c * (1 - Math.abs(((h / 60) % 2) - 1));
  let m = b - c;
  let r = 0, g = 0, b1 = 0;
  if (h >= 0 && h < 60) { r = c; g = x; b1 = 0; }
  else if (h >= 60 && h < 120) { r = x; g = c; b1 = 0; }
  else if (h >= 120 && h < 180) { r = 0; g = c; b1 = x; }
  else if (h >= 180 && h < 240) { r = 0; g = x; b1 = c; }
  else if (h >= 240 && h < 300) { r = x; g = 0; b1 = c; }
  else { r = c; g = 0; b1 = x; }
  return (r + m, g + m, b1 + m);
};
```
`hsbCore` is the body after the reassignment `h = h % 360`.
-/

/-- Body of `hsbToRgb` after the initial reassignment `h = h % 360`:
`h` here is the already-reduced hue. -/
def hsbCore (h s b : ℚ) : ℚ × ℚ × ℚ :=
  let s := s / 100
  let b := b / 100
  let c := b * s
  let x := c * (1 - |jsFmod (h / 60) 2 - 1|)
  let m := b - c
  let rgb : ℚ × ℚ × ℚ :=
    if 0 ≤ h ∧ h < 60 then (c, x, 0)
    else if 60 ≤ h ∧ h < 120 then (x, c, 0)
    else if 120 ≤ h ∧ h < 180 then (0, c, x)
    else if 180 ≤ h ∧ h < 240 then (0, x, c)
    else if 240 ≤ h ∧ h < 300 then (x, 0, c)
    else (c, 0, x)
  (rgb.1 + m, rgb.2.1 + m, rgb.2.2 + m)

/-- The HSB→RGB conversion of the scene components. -/
def hsbToRgb (h s b : ℚ) : ℚ × ℚ × ℚ :=
  hsbCore (jsFmod h 360) s b

/-- For `0 ≤ a` and `0 < b`, the JavaScript remainder lies in `[0, b)`. -/
theorem jsFmod_nonneg_lt (a b : ℚ) (ha : 0 ≤ a) (hb : 0 < b) :
    0 ≤ jsFmod a b ∧ jsFmod a b < b := by
  have hab : 0 ≤ a / b := div_nonneg ha hb.le
  have hba : b * (a / b) = a := mul_div_cancel₀ a hb.ne'
  simp only [jsFmod, jsTrunc, if_pos hab]
  constructor
  · have hfl : ((⌊a / b⌋ : ℚ)) ≤ a / b := Int.floor_le (a / b)
    have : b * ((⌊a / b⌋ : ℚ)) ≤ b * (a / b) :=
      mul_le_mul_of_nonneg_left hfl hb.le
    linarith [hba ▸ this]
  · have hfl : a / b < (⌊a / b⌋ : ℚ) + 1 := Int.lt_floor_add_one (a / b)
    have : b * (a / b) < b * ((⌊a / b⌋ : ℚ) + 1) :=
      mul_lt_mul_of_pos_left hfl hb
    nlinarith [hba ▸ this]

/-- For `0 ≤ a < b`, the JavaScript remainder is the identity. -/
theorem jsFmod_eq_self (a b : ℚ) (ha : 0 ≤ a) (hab : a < b) : jsFmod a b = a := by
  have hb : 0 < b := lt_of_le_of_lt ha hab
  have h0 : 0 ≤ a / b := div_nonneg ha hb.le
  have h1 : a / b < 1 := (div_lt_one hb).2 hab
  have hfl : ⌊a / b⌋ = 0 := Int.floor_eq_zero_iff.2 ⟨h0, h1⟩
  simp [jsFmod, jsTrunc, if_pos h0, hfl]

/-- Adding one period to a nonnegative dividend leaves the remainder unchanged. -/
theorem jsFmod_add_period (h : ℚ) (hh : 0 ≤ h) :
    jsFmod (h + 360) 360 = jsFmod h 360 := by
  have h1 : (h + 360) / 360 = h / 360 + 1 := by ring
  have h2 : (0 : ℚ) ≤ h / 360 := by positivity
  have h3 : (0 : ℚ) ≤ h / 360 + 1 := by linarith
  simp only [jsFmod, jsTrunc, h1, if_pos h2, if_pos h3, Int.floor_add_one]
  push_cast
  ring

/-- C1 counterexample: at hue `-10` the conversion differs from hue `350`,
because the JavaScript `%` returns a negative remainder for a negative hue
and the final `else` branch then sees `x < 0`. -/
theorem hsbToRgb_not_periodic_at_neg_ten :
    ¬ hsbToRgb (-10) 100 100 = hsbToRgb (-10 + 360) 100 100 := by
  have hL : hsbToRgb (-10) 100 100 = (1, 0, -(1/6)) := by
    norm_num [hsbToRgb, hsbCore, jsFmod, jsTrunc, abs_of_nonneg, abs_of_nonpos]
  have hR : hsbToRgb (-10 + 360) 100 100 = (1, 0, 1/6) := by
    norm_num [hsbToRgb, hsbCore, jsFmod, jsTrunc, abs_of_nonneg, abs_of_nonpos]
  rw [hL, hR]
  intro h
  have := congrArg (fun p : ℚ × ℚ × ℚ => p.2.2) h
  norm_num at this

/-- C1 (amended): the HSB→RGB conversion is periodic in hue with period 360
for every nonnegative hue `h` and all saturation/brightness values; for
negative hues periodicity fails (see the counterexample). -/
theorem hsbToRgb_periodic_of_nonneg (h s b : ℚ) (hh : 0 ≤ h) :
    hsbToRgb (h + 360) s b = hsbToRgb h s b := by
  simp only [hsbToRgb, jsFmod_add_period h hh]

/-- Witness for `hsbToRgb_periodic_of_nonneg` at `h = 30`, `s = b = 50`. -/
theorem hsbToRgb_periodic_of_nonneg_witness :
    (0 : ℚ) ≤ 30 ∧ hsbToRgb (30 + 360) 50 50 = hsbToRgb 30 50 50 :=
  ⟨by norm_num, hsbToRgb_periodic_of_nonneg 30 50 50 (by norm_num)⟩

/-- C9: the conversion maps the primary hues exactly (`0 ↦ red`,
`120 ↦ green`, `240 ↦ blue`), and for hue in `[0, 360)` and
saturation/brightness in `[0, 100]` every output component lies in `[0, 1]`. -/
theorem hsbToRgb_primary_hues_and_range :
    hsbToRgb 0 100 100 = (1, 0, 0) ∧
    hsbToRgb 120 100 100 = (0, 1, 0) ∧
    hsbToRgb 240 100 100 = (0, 0, 1) ∧
    ∀ h s b : ℚ, 0 ≤ h → h < 360 → 0 ≤ s → s ≤ 100 → 0 ≤ b → b ≤ 100 →
      0 ≤ (hsbToRgb h s b).1 ∧ (hsbToRgb h s b).1 ≤ 1 ∧
      0 ≤ (hsbToRgb h s b).2.1 ∧ (hsbToRgb h s b).2.1 ≤ 1 ∧
      0 ≤ (hsbToRgb h s b).2.2 ∧ (hsbToRgb h s b).2.2 ≤ 1 := by
  refine ⟨by norm_num [hsbToRgb, hsbCore, jsFmod, jsTrunc],
          by norm_num [hsbToRgb, hsbCore, jsFmod, jsTrunc],
          by norm_num [hsbToRgb, hsbCore, jsFmod, jsTrunc], ?_⟩
  intro h s b h0 h360 s0 s100 b0 b100
  have hmod : jsFmod h 360 = h := jsFmod_eq_self h 360 h0 h360
  have hs1 : s / 100 ≤ 1 := by linarith
  have hs0 : 0 ≤ s / 100 := by positivity
  have hb1 : b / 100 ≤ 1 := by linarith
  have hb0 : 0 ≤ b / 100 := by positivity
  have hc0 : 0 ≤ b / 100 * (s / 100) := by positivity
  have hcb : b / 100 * (s / 100) ≤ b / 100 := by nlinarith
  have hq := jsFmod_nonneg_lt (h / 60) 2 (by positivity) (by norm_num)
  have habs : |jsFmod (h / 60) 2 - 1| ≤ 1 := by
    rw [abs_le]; constructor <;> linarith [hq.1, hq.2]
  have ht0 : 0 ≤ 1 - |jsFmod (h / 60) 2 - 1| := by linarith
  have ht1 : 1 - |jsFmod (h / 60) 2 - 1| ≤ 1 := by
    have := abs_nonneg (jsFmod (h / 60) 2 - 1); linarith
  have hx0 : 0 ≤ b / 100 * (s / 100) * (1 - |jsFmod (h / 60) 2 - 1|) := by
    positivity
  have hxc : b / 100 * (s / 100) * (1 - |jsFmod (h / 60) 2 - 1|) ≤
      b / 100 * (s / 100) := by nlinarith
  simp only [hsbToRgb, hmod, hsbCore]
  split_ifs <;> dsimp only <;>
    refine ⟨by linarith, by linarith, by linarith, by linarith, by linarith,
      by linarith⟩

/-- Witness for `hsbToRgb_primary_hues_and_range` at `h = 90`, `s = 40`,
`b = 80`. -/
theorem hsbToRgb_primary_hues_and_range_witness :
    0 ≤ (hsbToRgb 90 40 80).1 ∧ (hsbToRgb 90 40 80).1 ≤ 1 ∧
    0 ≤ (hsbToRgb 90 40 80).2.1 ∧ (hsbToRgb 90 40 80).2.1 ≤ 1 ∧
    0 ≤ (hsbToRgb 90 40 80).2.2 ∧ (hsbToRgb 90 40 80).2.2 ≤ 1 :=
  hsbToRgb_primary_hues_and_range.2.2.2 90 40 80 (by norm_num) (by norm_num)
    (by norm_num) (by norm_num) (by norm_num) (by norm_num)

/-!
## Cluster color selection

The claim cites three color-selection sites across the scene revisions:

Mock-data revisions (`dataPoints.forEach`, identical in two revisions):
```js
const clusterColors = [ six THREE.Color values ];
const clusterColor = clusterColors[dataPoint.cluster || 0 % clusterColors.length];
```
In JavaScript `%` binds tighter than `||`, so the index expression is
`dataPoint.cluster || (0 % clusterColors.length)`, i.e. `dataPoint.cluster || 0`.
An out-of-range index on a JS array yields `undefined`, modelled by `Option`.

Live revision (`SphereScene.tsx`, cluster visualization effect):
```js
const clusterColors = [ ten THREE.Color values ];
Object.entries(clusters).forEach(([clusterIdStr, clusterInfo], clusterIndex) => {
  const clusterId = parseInt(clusterIdStr.slice(-1), 10);
  ...
  const clusterColor = clusterColors[clusterIndex % clusterColors.length];
  ... every node mesh of this cluster gets `baseColor: { value: clusterColor }` ...
});
```
Here the modulo is real but it is applied to `clusterIndex` — the cluster's
enumeration position in the map — over a ten-entry palette, not to the data
point's cluster id (`clusterId`, stored in `userData.cluster_id`).
-/

/-- The six-entry cluster color palette of the mock-data scene revisions
(colors as hex `0xRRGGBB` values). -/
def clusterColors : List ℕ :=
  [0x4285F4, 0xEA4335, 0xFBBC05, 0x34A853, 0x8F00FF, 0xFF6D01]

/-- The ten-entry cluster color palette of the live `SphereScene.tsx`. -/
def clusterColorsLive : List ℕ :=
  [0x4285F4, 0xEA4335, 0xFBBC05, 0x34A853, 0x8F00FF, 0xFF6D01,
   0x00FFFF, 0xFF00FF, 0xC71585, 0x20B2AA]

/-- A cluster as the live color-selection loop sees it: its id
(`parseInt(clusterIdStr.slice(-1), 10)`, attached to every node of the
cluster as `userData.cluster_id`). -/
structure LiveCluster where
  id : ℕ
deriving DecidableEq

/-- Live revision, line `clusterColors[clusterIndex % clusterColors.length]`:
the palette entry used for every node of the cluster at enumeration
position `clusterIndex`. -/
def liveClusterColor (clusterIndex : ℕ) : Option ℕ :=
  clusterColorsLive.get? (clusterIndex % clusterColorsLive.length)

/-- The live `Object.entries(clusters).forEach`: pairs each cluster's id with
the color its nodes are rendered with. -/
def liveClusterColorAssignment (clusters : List LiveCluster) :
    List (ℕ × Option ℕ) :=
  clusters.enum.map (fun kc => (kc.2.id, liveClusterColor kc.1))

/-- JavaScript `a || b` for a possibly-`undefined` number `a`:
returns `b` when `a` is `undefined` or `0` (both falsy). -/
def jsOrZero (a : Option ℕ) (b : ℕ) : ℕ :=
  match a with
  | some c => if c = 0 then b else c
  | none => b

/-- The palette index computed by `dataPoint.cluster || 0 % clusterColors.length`. -/
def clusterColorIndex (cluster : Option ℕ) : ℕ :=
  jsOrZero cluster (0 % clusterColors.length)

/-- The palette entry looked up for a data point's cluster id
(`none` models the `undefined` produced by an out-of-bounds JS array read). -/
def clusterColorAt (cluster : Option ℕ) : Option ℕ :=
  clusterColors.get? (clusterColorIndex cluster)

/-- C4 counterexample, one per cited site.  Mock revisions: for cluster id 6
(= palette length) the code reads `clusterColors[6]`, which is `undefined`,
not the palette entry at `6 % 6 = 0`.  Live revision: the sole cluster of a
map, with cluster id 5, is rendered with the palette entry at its
enumeration position 0 (blue `0x4285F4`), not at `5 % 10` (orange
`0xFF6D01`) as the claim predicts. -/
theorem clusterColor_not_id_modulo :
    ¬ clusterColorAt (some 6) = clusterColors.get? (6 % clusterColors.length) ∧
    ¬ liveClusterColorAssignment [LiveCluster.mk 5] =
        [(5, clusterColorsLive.get? (5 % clusterColorsLive.length))] := by
  constructor <;> decide

/-- C4 (amended), per cited site.  Mock revisions: the rendered cluster color
is the palette entry at the raw cluster id (`%` binds tighter than `||`, so
no modulo wraparound is applied): ids below the six-entry palette length
agree with the claimed `id % length` entry, but ids at or beyond it yield no
palette entry at all.  Live revision: every node of the cluster at
enumeration position `k` is colored by the palette entry at
`k % 10` — always an in-bounds entry, but selected by the cluster's position
in the map, not by the data point's cluster id. -/
theorem clusterColor_selection :
    (∀ c : ℕ, clusterColorAt (some c) = clusterColors.get? c ∧
      (c < clusterColors.length →
        clusterColorAt (some c) = clusterColors.get? (c % clusterColors.length)) ∧
      (clusterColors.length ≤ c → clusterColorAt (some c) = none)) ∧
    (∀ k : ℕ, (liveClusterColor k).isSome = true) ∧
    (∀ clusters : List LiveCluster, ∀ k : ℕ, ∀ hk : k < clusters.length,
      (liveClusterColorAssignment clusters)[k]? =
        some ((clusters[k]).id, liveClusterColor k)) := by
  refine ⟨?_, ?_, ?_⟩
  · intro c
    have hidx : clusterColorIndex (some c) = c := by
      cases c with
      | zero => rfl
      | succ n => simp [clusterColorIndex, jsOrZero]
    refine ⟨by rw [clusterColorAt, hidx], ?_, ?_⟩
    · intro hc
      rw [clusterColorAt, hidx, Nat.mod_eq_of_lt hc]
    · intro hc
      rw [clusterColorAt, hidx]
      exact List.get?_eq_none.2 hc
  · intro k
    have hlt : k % clusterColorsLive.length < clusterColorsLive.length :=
      Nat.mod_lt _ (by decide)
    rw [liveClusterColor, List.get?_eq_getElem?, List.getElem?_eq_getElem hlt]
    rfl
  · intro clusters k hk
    rw [liveClusterColorAssignment,
      List.getElem?_map (fun kc : ℕ × LiveCluster => (kc.2.id, liveClusterColor kc.1))
        clusters.enum k,
      List.getElem?_enum clusters k, List.getElem?_eq_getElem hk]
    rfl

/-- Witness for `clusterColor_selection`: cluster ids 2 and 6 at the mock
sites, and the second cluster (id 3) of a two-cluster map at the live site. -/
theorem clusterColor_selection_witness :
    clusterColorAt (some 2) = clusterColors.get? (2 % clusterColors.length) ∧
    clusterColorAt (some 6) = none ∧
    (liveClusterColorAssignment [LiveCluster.mk 7, LiveCluster.mk 3])[1]? =
      some (3, liveClusterColor 1) :=
  ⟨(clusterColor_selection.1 2).2.1 (by decide),
   (clusterColor_selection.1 6).2.2 (by decide),
   clusterColor_selection.2.2 [LiveCluster.mk 7, LiveCluster.mk 3] 1 (by decide)⟩

/-!
## Embedding rows → rendered points (`unbiasedEmbeddings` effect)

Source (`SphereScene.tsx`, second effect):
```js
const points = unbiasedEmbeddings.embeddings
  .map((emb) => {
    if (emb.length < 6) return null;
    return { x: emb[0], y: emb[1], z: emb[2],
             r: (emb[3] + 1) / 2, g: (emb[4] + 1) / 2, b: (emb[5] + 1) / 2 };
  })
  .filter(Boolean);
```
-/

/-- A rendered data point built from one embedding row. -/
structure EmbPoint where
  x : ℚ
  y : ℚ
  z : ℚ
  r : ℚ
  g : ℚ
  b : ℚ
deriving DecidableEq, Repr

/-- The per-row conversion: rows with fewer than 6 entries become `null`. -/
def toDataPoint (emb : List ℚ) : Option EmbPoint :=
  if emb.length < 6 then none
  else some ⟨emb.getD 0 0, emb.getD 1 0, emb.getD 2 0,
    (emb.getD 3 0 + 1) / 2, (emb.getD 4 0 + 1) / 2, (emb.getD 5 0 + 1) / 2⟩

/-- `map` + `filter(Boolean)`: drop exactly the `null`s (objects are truthy). -/
def convertEmbeddings (embs : List (List ℚ)) : List EmbPoint :=
  (embs.map toDataPoint).filterMap id

/-- C8: conversion is total (no exception), every row with at least 6 entries
produces exactly one rendered point, and shorter rows are dropped: the number
of rendered points equals the number of rows of length at least 6. -/
theorem convertEmbeddings_length (embs : List (List ℚ)) :
    (convertEmbeddings embs).length =
      (embs.filter (fun e => 6 ≤ e.length)).length := by
  induction embs with
  | nil => rfl
  | cons e t ih =>
    by_cases h : e.length < 6
    · have h6 : ¬ (6 ≤ e.length) := by omega
      simp only [convertEmbeddings, List.map_cons, List.filterMap_cons,
        List.filter_cons, toDataPoint, if_pos h, h6, decide_False] at *
      simpa using ih
    · have h6 : 6 ≤ e.length := by omega
      simp only [convertEmbeddings, List.map_cons, List.filterMap_cons,
        List.filter_cons, toDataPoint, if_neg h, h6, decide_True] at *
      simpa using ih

/-!
## Bias analysis panel (`BiasAnalysisScreen.tsx`)

Source:
```js
const clusterBiasData = [ four hardcoded entries ];
const getBiasData = () => {
  if (activeCluster === null) {
    return { genderBias: clusterBiasData.reduce((sum, d) => sum + d.genderBias, 0)
                           / clusterBiasData.length, ... };
  }
  const clusterIndex = Math.min(Math.max(0, activeCluster), clusterBiasData.length - 1);
  return clusterBiasData[clusterIndex];
};
```
Note the selected-cluster index is *clamped* to `[0, length-1]`, not reduced
modulo the table length (only the display-name helper uses modulo).
-/

/-- One hardcoded mock statistics entry of the bias panel. -/
structure BiasEntry where
  genderBias : ℚ
  ageBias : ℚ
  ethnicityBias : ℚ
  recommendations : List String
deriving DecidableEq, Inhabited

/-- The hardcoded mock statistics table (Blue, Red, Yellow, Green groups). -/
def clusterBiasData : List BiasEntry :=
  [⟨82/100, 65/100, 78/100,
    ["Consider rebalancing your dataset to address gender representation",
     "Review language patterns in job descriptions that may contribute to bias",
     "Implement additional fairness constraints in your model training"]⟩,
   ⟨45/100, 72/100, 63/100,
    ["Address age-related bias in your training data",
     "Review decision boundaries that may disadvantage certain age groups",
     "Consider implementing age-specific fairness metrics"]⟩,
   ⟨67/100, 58/100, 89/100,
    ["Urgent attention needed for ethnicity representation",
     "Consider data augmentation techniques to balance ethnic groups",
     "Implement stronger regularization for ethnicity-related features"]⟩,
   ⟨71/100, 49/100, 52/100,
    ["Address gender imbalance in your model outputs",
     "Review feature importance scores for gender-correlated features",
     "Consider implementing adversarial debiasing techniques"]⟩]

/-- `getBiasData` of the bias panel: mean entry when no cluster is selected,
otherwise the entry at the clamped index. -/
def getBiasData (activeCluster : Option ℤ) : BiasEntry :=
  match activeCluster with
  | none =>
    { genderBias :=
        (clusterBiasData.foldl (fun sum d => sum + d.genderBias) 0) /
          (clusterBiasData.length : ℚ)
      ageBias :=
        (clusterBiasData.foldl (fun sum d => sum + d.ageBias) 0) /
          (clusterBiasData.length : ℚ)
      ethnicityBias :=
        (clusterBiasData.foldl (fun sum d => sum + d.ethnicityBias) 0) /
          (clusterBiasData.length : ℚ)
      recommendations :=
        ["Select a specific cluster for detailed recommendations",
         "Overall, consider implementing fairness-aware training techniques",
         "Review your data collection and labeling processes for potential bias"] }
  | some a =>
    let clusterIndex : ℤ := min (max 0 a) ((clusterBiasData.length : ℤ) - 1)
    clusterBiasData.getD clusterIndex.toNat default

/-- C6 counterexample: for selected cluster id 5 the panel shows the entry at
the clamped index 3 (gender bias 0.71), not the entry at `5 % 4 = 1`
(gender bias 0.45). -/
theorem getBiasData_not_modulo :
    ¬ getBiasData (some 5) =
        clusterBiasData.getD ((5 : ℤ).toNat % clusterBiasData.length) default := by
  intro h
  have := congrArg BiasEntry.genderBias h
  have hmod : (5 : ℤ).toNat % clusterBiasData.length = 1 := rfl
  rw [hmod] at this
  simp only [getBiasData] at this
  have hidx : (min (max 0 (5 : ℤ)) ((clusterBiasData.length : ℤ) - 1)).toNat = 3 :=
    rfl
  rw [hidx] at this
  simp only [clusterBiasData, List.getD_cons_succ, List.getD_cons_zero] at this
  norm_num at this

/-- C6 (amended): with a selected cluster id the panel shows the mock entry at
the id *clamped* to `[0, 3]` (negative ids map to entry 0, ids ≥ 3 to entry 3,
in-range ids to themselves — not reduced modulo the table length); with no
selection each displayed score is the arithmetic mean of that score over the
four mock entries. -/
theorem getBiasData_clamped_and_mean :
    (getBiasData none).genderBias = 53/80 ∧
    (getBiasData none).ageBias = 61/100 ∧
    (getBiasData none).ethnicityBias = 141/200 ∧
    (∀ a : ℤ, a ≤ 0 → getBiasData (some a) = clusterBiasData.getD 0 default) ∧
    (∀ a : ℤ, 0 ≤ a → a ≤ 3 →
      getBiasData (some a) = clusterBiasData.getD a.toNat default) ∧
    (∀ a : ℤ, 3 ≤ a → getBiasData (some a) = clusterBiasData.getD 3 default) := by
  refine ⟨?_, ?_, ?_, ?_, ?_, ?_⟩
  · simp only [getBiasData, clusterBiasData, List.foldl_cons, List.foldl_nil,
      List.length_cons, List.length_nil]
    norm_num
  · simp only [getBiasData, clusterBiasData, List.foldl_cons, List.foldl_nil,
      List.length_cons, List.length_nil]
    norm_num
  · simp only [getBiasData, clusterBiasData, List.foldl_cons, List.foldl_nil,
      List.length_cons, List.length_nil]
    norm_num
  · intro a ha
    simp only [getBiasData]
    congr 1
    have h1 : max 0 a = 0 := max_eq_left ha
    have h2 : min (0 : ℤ) ((clusterBiasData.length : ℤ) - 1) = 0 := by
      simp [clusterBiasData]
    rw [h1, h2]
    rfl
  · intro a h0 h3
    simp only [getBiasData]
    congr 1
    have h1 : max 0 a = a := max_eq_right h0
    have h2 : min a ((clusterBiasData.length : ℤ) - 1) = a := by
      simp only [clusterBiasData, List.length_cons, List.length_nil]
      omega
    rw [h1, h2]
  · intro a ha
    simp only [getBiasData]
    congr 1
    have h1 : max 0 a = a := max_eq_right (by omega)
    have h2 : min a ((clusterBiasData.length : ℤ) - 1) = 3 := by
      simp only [clusterBiasData, List.length_cons, List.length_nil]
      omega
    rw [h1, h2]
    rfl

/-- Witness for `getBiasData_clamped_and_mean` at cluster ids `-2`, `2`, `9`. -/
theorem getBiasData_clamped_and_mean_witness :
    getBiasData (some (-2)) = clusterBiasData.getD 0 default ∧
    getBiasData (some 2) = clusterBiasData.getD (2 : ℤ).toNat default ∧
    getBiasData (some 9) = clusterBiasData.getD 3 default :=
  ⟨getBiasData_clamped_and_mean.2.2.2.1 (-2) (by norm_num),
   getBiasData_clamped_and_mean.2.2.2.2.1 2 (by norm_num) (by norm_num),
   getBiasData_clamped_and_mean.2.2.2.2.2 9 (by norm_num)⟩

/-!
## Job polling loop (`page.tsx`, the `[jobId, jobStatus]` effect)

Source:
```js
useEffect(() => {
  let interval = null;
  if (jobId && ["processing", "running"].includes(jobStatus || "")) {
    setUploadStatus("processing");
    interval = setInterval(async () => { ... getJobStatus(jobId) ... }, 2000);
  }
  return () => { if (interval) clearInterval(interval); };
}, [jobId, jobStatus]);
```
The effect re-runs whenever `jobId` or `jobStatus` changes: its cleanup
clears the interval, and a new interval is created only when the guard holds
again.  A status request (one interval tick) is therefore only possible from
a state satisfying the guard.  The step relation below has one constructor
per way the tick callback can run, each guarded by `pollingActive`.
-/

/-- The component state relevant to polling. -/
structure PollState where
  jobId : Option String
  jobStatus : Option String
  uploadStatus : String
deriving DecidableEq

/-- The effect guard: `jobId && ["processing", "running"].includes(jobStatus || "")`. -/
def pollingActive (s : PollState) : Bool :=
  s.jobId.isSome && ["processing", "running"].contains (s.jobStatus.getD "")

/-- State update performed by one tick of the interval callback on a
successful `getJobStatus` response (fan-out fetches are modelled separately). -/
def applyStatus (s : PollState) (status : String) : PollState :=
  if status = "completed" then
    { s with jobStatus := some status, uploadStatus := "complete" }
  else if status = "failed" then
    { s with jobStatus := some status, uploadStatus := "error" }
  else
    { s with jobStatus := some status }

/-- Events of the polling loop. -/
inductive PollEvent where
  /-- One interval tick: a job-status request is issued and `response` comes back. -/
  | statusRequest (response : String)
  /-- One interval tick whose `getJobStatus` call throws (caught in the callback). -/
  | statusRequestFailed
  /-- The delayed `setTimeout` clearing the job id after completion. -/
  | resetJob
  /-- The delayed `setTimeout` clearing the success notification. -/
  | resetNotification
deriving DecidableEq

/-- Whether an event issues a job-status request over the network. -/
def issuesStatusRequest : PollEvent → Bool
  | .statusRequest _ => true
  | .statusRequestFailed => true
  | _ => false

/-- Transition relation of the polling loop.  Interval ticks require the
interval to exist, i.e. the effect guard `pollingActive` to hold for the
current `(jobId, jobStatus)` pair. -/
inductive PollStep : PollState → PollEvent → PollState → Prop where
  | poll (s : PollState) (r : String) (h : pollingActive s = true) :
      PollStep s (.statusRequest r) (applyStatus s r)
  | pollFail (s : PollState) (h : pollingActive s = true) :
      PollStep s .statusRequestFailed { s with uploadStatus := "error" }
  | resetJob (s : PollState) :
      PollStep s .resetJob { s with jobId := none, jobStatus := none }
  | resetNotification (s : PollState) :
      PollStep s .resetNotification
        { s with uploadStatus := "idle" }

/-- C2: a job-status request can only be issued from a state with a job id
whose observed status is `processing` or `running`; in particular no request
is ever issued once the observed status is `completed` or `failed`. -/
theorem no_poll_after_terminal (s : PollState) (e : PollEvent) (s' : PollState)
    (hstep : PollStep s e s') (hreq : issuesStatusRequest e = true) :
    s.jobId.isSome = true ∧
    (s.jobStatus = some "processing" ∨ s.jobStatus = some "running") ∧
    s.jobStatus ≠ some "completed" ∧ s.jobStatus ≠ some "failed" := by
  have hactive : pollingActive s = true := by
    cases hstep with
    | poll r h => exact h
    | pollFail h => exact h
    | resetJob => simp [issuesStatusRequest] at hreq
    | resetNotification => simp [issuesStatusRequest] at hreq
  rw [pollingActive, Bool.and_eq_true] at hactive
  obtain ⟨hid, hmem⟩ := hactive
  have hstat : s.jobStatus = some "processing" ∨ s.jobStatus = some "running" := by
    rcases hjs : s.jobStatus with _ | v
    · rw [hjs] at hmem; simp at hmem
    · rw [hjs] at hmem
      simp only [Option.getD_some] at hmem
      have hv : v = "processing" ∨ v = "running" := by simpa using hmem
      rcases hv with h | h
      · exact Or.inl (by rw [h])
      · exact Or.inr (by rw [h])
  refine ⟨hid, hstat, ?_, ?_⟩ <;>
    rcases hstat with h | h <;> rw [h] <;> simp

/-- Witness for `no_poll_after_terminal`: a concrete tick from a
`processing` state. -/
theorem no_poll_after_terminal_witness :
    (PollState.mk (some "job-1") (some "processing") "processing").jobId.isSome
        = true ∧
    ((PollState.mk (some "job-1") (some "processing") "processing").jobStatus
        = some "processing" ∨
      (PollState.mk (some "job-1") (some "processing") "processing").jobStatus
        = some "running") ∧
    (PollState.mk (some "job-1") (some "processing") "processing").jobStatus
        ≠ some "completed" ∧
    (PollState.mk (some "job-1") (some "processing") "processing").jobStatus
        ≠ some "failed" :=
  no_poll_after_terminal _ _ _
    (PollStep.poll (PollState.mk (some "job-1") (some "processing") "processing")
      "completed" (by decide)) (by decide)

/-!
## Completed-job fan-out (`page.tsx`, inside the `completed` branch)

The fan-out awaits, in order and inside a single `try`/`catch`:
`getCleanedResumes`, `getUnbiasingSummary`, `getAllClusterAnalyses`,
`getAllClustersInfo`, `getUnbiasedEmbeddingsData`, `getRemovedEmbeddingsData`
(each only when marked available).  Per the API client (`apiClient.js`):
the first three catch internally and return `{error}` objects, while
`getAllClustersInfo`, `getUnbiasedEmbeddingsData` and
`getRemovedEmbeddingsData` re-throw on failure.  The single outer `catch`
only does `console.error`; it never calls `setUploadStatus("error")`.
-/

/-- The six data fetches of the completion fan-out, in source order. -/
inductive FetchId where
  | cleanedResumes
  | summary
  | clusterAnalyses
  | clustersInfo
  | unbiasedEmbeddings
  | removedEmbeddings
deriving DecidableEq, Repr, Fintype

/-- Source order of the `await`s in the fan-out. -/
def fanOutOrder : List FetchId :=
  [.cleanedResumes, .summary, .clusterAnalyses, .clustersInfo,
   .unbiasedEmbeddings, .removedEmbeddings]

/-- Whether the API-client function behind a fetch re-throws on failure
(`true`) or catches internally and returns an `{error}` object (`false`). -/
def clientThrows : FetchId → Bool
  | .clustersInfo => true
  | .unbiasedEmbeddings => true
  | .removedEmbeddings => true
  | _ => false

/-- Result of one backend fetch. -/
inductive FetchOutcome where
  | success
  | failure
deriving DecidableEq

/-- Sequential execution of the fan-out body: each available fetch is
issued in order; a fetch whose client function throws on failure aborts the
rest of the `try` block (the exception lands in the outer `catch`, which only
logs).  Returns the list of fetches actually issued and the upload status
after the fan-out. -/
def runFanOut (avail : FetchId → Bool) (outcome : FetchId → FetchOutcome) :
    List FetchId → List FetchId × String
  | [] => ([], "complete")
  | f :: rest =>
    if avail f then
      if outcome f = .failure ∧ clientThrows f = true then
        ([f], "complete")
      else
        let r := runFanOut avail outcome rest
        (f :: r.1, r.2)
    else runFanOut avail outcome rest

/-- The fetches issued by the fan-out and the resulting upload status. -/
def fanOut (avail : FetchId → Bool) (outcome : FetchId → FetchOutcome) :
    List FetchId × String :=
  runFanOut avail outcome fanOutOrder

/-- C3 counterexample: with every dataset available, a failing
`getAllClustersInfo` throws and aborts its sibling embedding fetches — the
fan-out issues only four of the six fetches instead of all six. -/
theorem fanOut_failure_aborts_siblings :
    ¬ (fanOut (fun _ => true)
          (fun f => if f = .clustersInfo then .failure else .success)).1 =
        (fanOut (fun _ => true) (fun _ => .success)).1 := by
  decide

/-- Upload status is never moved to `error` by the fan-out, whatever fails. -/
theorem runFanOut_status (avail : FetchId → Bool)
    (outcome : FetchId → FetchOutcome) :
    ∀ l : List FetchId, (runFanOut avail outcome l).2 = "complete" := by
  intro l
  induction l with
  | nil => rfl
  | cons f rest ih =>
    simp only [runFanOut]
    split_ifs <;> simp [ih]

/-- C3 (amended): the fan-out never moves the upload state machine to the
error state; and as long as every failure happens in a fetch whose client
returns an `{error}` object (resumes, summary, cluster analyses), failures
are skipped without affecting which sibling fetches are issued.  (A failure
in a throwing fetch — cluster info or either embeddings fetch — instead
aborts the remaining fetches, see the counterexample.) -/
theorem fanOut_soft_failures_skipped (avail : FetchId → Bool)
    (outcome : FetchId → FetchOutcome)
    (hsoft : ∀ f, outcome f = .failure → clientThrows f = false) :
    (fanOut avail outcome).2 = "complete" ∧
    (fanOut avail outcome).1 = (fanOut avail (fun _ => .success)).1 := by
  refine ⟨runFanOut_status avail outcome fanOutOrder, ?_⟩
  unfold fanOut
  induction fanOutOrder with
  | nil => rfl
  | cons f rest ih =>
    simp only [runFanOut]
    by_cases ha : avail f
    · have hnothrow : ¬ (outcome f = .failure ∧ clientThrows f = true) := by
        rintro ⟨h1, h2⟩
        rw [hsoft f h1] at h2
        exact Bool.false_ne_true h2
      have hnothrow' :
          ¬ ((fun _ => FetchOutcome.success) f = .failure ∧
            clientThrows f = true) := by
        rintro ⟨h1, _⟩
        exact FetchOutcome.noConfusion h1
      rw [if_pos ha, if_pos ha, if_neg hnothrow, if_neg hnothrow']
      simp [ih]
    · rw [if_neg ha, if_neg ha]
      exact ih

/-- Witness for `fanOut_soft_failures_skipped`: a failing summary fetch
(soft error) leaves the issued fetch list and the upload status unchanged. -/
theorem fanOut_soft_failures_skipped_witness :
    (fanOut (fun _ => true)
        (fun f => if f = .summary then .failure else .success)).2 = "complete" ∧
    (fanOut (fun _ => true)
        (fun f => if f = .summary then .failure else .success)).1 =
      (fanOut (fun _ => true) (fun _ => .success)).1 :=
  fanOut_soft_failures_skipped _ _ (by decide)

/-!
## File upload validation (`handleFileChange` / `handleDrop` / `processUpload`)

Source (`page.tsx`; `handleFileChange` and `handleDrop` share this guard):
```js
const file = ...files?.[0];
if (file) {
  if (file.type !== "text/csv" && !file.name.endsWith(".csv")) {
    return;
  }
  setUploadedFile(file);
}
```
```js
const processUpload = async () => {
  if (!uploadedFile) { return; }
  ... await uploadDataset(uploadedFile, clusterCount); ...
};
```
The handlers issue no network request; `uploadDataset` is the only upload
request and it is reached only past the `!uploadedFile` guard.
-/

/-- A browser `File` as far as the upload guard reads it. -/
structure JsFile where
  name : String
  type : String
deriving DecidableEq

/-- JavaScript `String.prototype.endsWith`: suffix test on the characters. -/
def jsEndsWith (s suffix : String) : Bool :=
  suffix.data.isSuffixOf s.data

/-- The shared body of `handleFileChange` and `handleDrop`: given the
previously stored uploaded file and the (possibly absent) selected file,
returns the uploaded-file state afterwards. -/
def handleFileSelect (prev : Option JsFile) (file : Option JsFile) :
    Option JsFile :=
  match file with
  | none => prev
  | some f =>
    if f.type ≠ "text/csv" ∧ jsEndsWith f.name ".csv" = false then prev
    else some f

/-- Whether `processUpload` issues the upload network request: it returns
early when no uploaded file is stored. -/
def processUpload (uploadedFile : Option JsFile) : Bool :=
  match uploadedFile with
  | none => false
  | some _ => true

/-- C7 counterexample: a file named `data.txt` (not ending in `.csv`) with
MIME type `text/csv` passes the guard and is stored as the uploaded file. -/
theorem handleFileSelect_accepts_nonCsv_name :
    jsEndsWith (JsFile.mk "data.txt" "text/csv").name ".csv" = false ∧
    handleFileSelect none (some (JsFile.mk "data.txt" "text/csv")) =
      some (JsFile.mk "data.txt" "text/csv") := by
  constructor
  · decide
  · rw [handleFileSelect, if_neg]
    rintro ⟨h1, _⟩
    exact h1 rfl

/-- C7 (amended): a selected file is rejected before any network call only
when its MIME type is not `text/csv` *and* its name does not end in `.csv`
(so a non-`.csv` name alone is not enough, see the counterexample); a
rejected file is never stored, and `processUpload` issues no upload request
when no file is stored. -/
theorem upload_rejects_before_network (prev : Option JsFile) (f : JsFile)
    (htype : f.type ≠ "text/csv") (hname : jsEndsWith f.name ".csv" = false) :
    handleFileSelect prev (some f) = prev ∧ processUpload none = false := by
  refine ⟨?_, rfl⟩
  rw [handleFileSelect, if_pos ⟨htype, hname⟩]

/-- Witness for `upload_rejects_before_network` on a JSON file. -/
theorem upload_rejects_before_network_witness :
    handleFileSelect none (some (JsFile.mk "data.json" "application/json"))
        = none ∧
    processUpload none = false :=
  upload_rejects_before_network none (JsFile.mk "data.json" "application/json")
    (by decide) (by decide)

/-!
## Nearest-neighbor connections (`SphereScene.tsx`, connection loop)

Source:
```js
const MAX_CONNECTIONS_PER_NODE = 3;
clusterNodes.forEach((sourceNode, i) => {
  const distances = clusterNodes
    .map((targetNode, j) => {
      if (i === j) return { index: j, distance: Infinity }; // Skip self
      const dx = ..., dy = ..., dz = ...;
      return { index: j, distance: Math.sqrt(dx*dx + dy*dy + dz*dz) };
    })
    .sort((a, b) => a.distance - b.distance)
    .slice(0, MAX_CONNECTIONS_PER_NODE);
  distances.forEach(({ index: j, distance }) => {
    if (distance > 2) return;   // Skip if distance is too large
    ... draw a line from node i to node j ...
  });
});
```
Distances are modelled by their squares (`Math.sqrt` is strictly monotone on
nonnegative reals, so sorting by distance is sorting by squared distance and
`distance > 2` is `distance² > 4`); `Infinity` is a separate constructor.
The sort is modelled by `List.insertionSort` under the comparator's ordering
— the properties proved below depend only on the output being a permutation
of the input, not on any tie-breaking choice of `Array.prototype.sort`.
-/

/-- A node position in the scene. -/
structure Point3 where
  x : ℚ
  y : ℚ
  z : ℚ
deriving DecidableEq, Inhabited

/-- Squared Euclidean distance, `dx*dx + dy*dy + dz*dz`. -/
def dist2 (p q : Point3) : ℚ :=
  (p.x - q.x) * (p.x - q.x) + (p.y - q.y) * (p.y - q.y) +
    (p.z - q.z) * (p.z - q.z)

/-- A comparator distance: a finite distance recorded by its square, or
`Infinity` (the self entry). -/
inductive EDist where
  | val (d2 : ℚ)
  | inf
deriving DecidableEq

/-- Comparator order `a.distance ≤ b.distance` on modelled distances. -/
def distLEb : EDist → EDist → Bool
  | .val a, .val b => decide (a ≤ b)
  | _, .inf => true
  | .inf, .val _ => false

/-- `distance > 2`, on squared distances: `√d² > 2 ↔ d² > 4`; `Infinity > 2`
holds. -/
def distGtTwo : EDist → Bool
  | .val d2 => decide (4 < d2)
  | .inf => true

/-- The `{index, distance}` list built for source node `i`:
the self entry gets `Infinity`. -/
def nodeDistances (nodes : List Point3) (i : ℕ) : List (ℕ × EDist) :=
  nodes.enum.map (fun jp =>
    if i = jp.1 then (jp.1, EDist.inf)
    else (jp.1, EDist.val (dist2 (nodes.getD i default) jp.2)))

/-- The connection lines drawn from node `i`: sort ascending, keep the
closest 3, drop entries farther than the threshold. -/
def connectionsOf (nodes : List Point3) (i : ℕ) : List (ℕ × EDist) :=
  ((List.insertionSort (fun a b : ℕ × EDist => distLEb a.2 b.2 = true)
      (nodeDistances nodes i)).take 3).filter
    (fun e => ! distGtTwo e.2)

/-- Dropping an element on which the filter predicate is false makes the
filtered list strictly shorter than the original. -/
theorem length_filter_lt_of_mem_false {α : Type} (p : α → Bool) :
    ∀ (l : List α) (a : α), a ∈ l → p a = false →
      (l.filter p).length < l.length := by
  intro l
  induction l with
  | nil => intro a ha _; cases ha
  | cons h t ih =>
    intro a ha hpa
    rcases List.mem_cons.1 ha with rfl | hat
    · rw [List.filter_cons, if_neg (by simp [hpa])]
      exact Nat.lt_succ_of_le (List.length_filter_le p t)
    · rw [List.filter_cons]
      split_ifs
      · simpa using Nat.succ_lt_succ (ih a hat hpa)
      · exact Nat.lt_succ_of_lt (ih a hat hpa)

/-- The self entry `(i, Infinity)` is in the distance list of node `i`. -/
theorem self_mem_nodeDistances (nodes : List Point3) (i : ℕ)
    (hi : i < nodes.length) : (i, EDist.inf) ∈ nodeDistances nodes i := by
  have hmem : (i, nodes.get ⟨i, hi⟩) ∈ nodes.enum := by
    rw [List.mk_mem_enum_iff_getElem?]
    exact List.getElem?_eq_getElem hi
  have := List.mem_map_of_mem (fun jp : ℕ × Point3 =>
    if i = jp.1 then (jp.1, EDist.inf)
    else (jp.1, EDist.val (dist2 (nodes.getD i default) jp.2))) hmem
  simpa [nodeDistances] using this

/-- Every entry of the distance list of node `i` that carries index `i` is
the `Infinity` self entry. -/
theorem nodeDistances_self_inf (nodes : List Point3) (i : ℕ) :
    ∀ e ∈ nodeDistances nodes i, e.1 = i → e.2 = EDist.inf := by
  intro e he hei
  obtain ⟨jp, hjp, rfl⟩ := List.mem_map.1 he
  by_cases hij : i = jp.1
  · simp [if_pos hij]
  · rw [if_neg hij] at hei ⊢
    exact absurd hei.symm hij

/-- C5: for a cluster with fewer than 4 member nodes, the connection loop
draws at most `members − 1` lines from each node, and never a line from a
node to itself. -/
theorem connections_per_node_bound (nodes : List Point3) (i : ℕ)
    (hsmall : nodes.length < 4) (hi : i < nodes.length) :
    (connectionsOf nodes i).length ≤ nodes.length - 1 ∧
    ∀ e ∈ connectionsOf nodes i, e.1 ≠ i := by
  have hlenL : (nodeDistances nodes i).length = nodes.length := by
    simp [nodeDistances]
  have hperm :=
    List.perm_insertionSort (fun a b : ℕ × EDist => distLEb a.2 b.2 = true)
      (nodeDistances nodes i)
  have hsortlen := hperm.length_eq
  have htake :
      (List.insertionSort (fun a b : ℕ × EDist => distLEb a.2 b.2 = true)
          (nodeDistances nodes i)).take 3 =
        List.insertionSort (fun a b : ℕ × EDist => distLEb a.2 b.2 = true)
          (nodeDistances nodes i) := by
    apply List.take_of_length_le
    rw [hsortlen, hlenL]
    omega
  constructor
  · have hfperm := hperm.filter (fun e : ℕ × EDist => ! distGtTwo e.2)
    have hlt :=
      length_filter_lt_of_mem_false (fun e : ℕ × EDist => ! distGtTwo e.2)
        (nodeDistances nodes i) (i, EDist.inf)
        (self_mem_nodeDistances nodes i hi) (by simp [distGtTwo])
    have : (connectionsOf nodes i).length =
        ((nodeDistances nodes i).filter
          (fun e : ℕ × EDist => ! distGtTwo e.2)).length := by
      rw [connectionsOf, htake]
      exact hfperm.length_eq
    omega
  · intro e he hei
    have he' : e ∈ (List.insertionSort
        (fun a b : ℕ × EDist => distLEb a.2 b.2 = true)
        (nodeDistances nodes i)).take 3 ∧ (! distGtTwo e.2) = true :=
      List.mem_filter.1 he
    have hmemL : e ∈ nodeDistances nodes i :=
      hperm.mem_iff.1 (List.take_subset 3 _ he'.1)
    have hinf : e.2 = EDist.inf := nodeDistances_self_inf nodes i e hmemL hei
    rw [hinf] at he'
    simp [distGtTwo] at he'

/-- Witness for `connections_per_node_bound`: a three-node cluster,
source node 0. -/
theorem connections_per_node_bound_witness :
    (connectionsOf [Point3.mk 0 0 0, Point3.mk 1 0 0, Point3.mk 9 9 9] 0).length
        ≤ [Point3.mk 0 0 0, Point3.mk 1 0 0, Point3.mk 9 9 9].length - 1 ∧
    ∀ e ∈ connectionsOf [Point3.mk 0 0 0, Point3.mk 1 0 0, Point3.mk 9 9 9] 0,
      e.1 ≠ 0 :=
  connections_per_node_bound [Point3.mk 0 0 0, Point3.mk 1 0 0, Point3.mk 9 9 9]
    0 (by simp) (by simp)

/-!
## Cluster-count filter (`getFilteredClusterData` in `page.tsx`)

Source:
```js
const getFilteredClusterData = useCallback(() => {
  if (!clusterData || !clusterData.clusters) return null;
  const allClusterIds = Object.keys(clusterData.clusters);
  const sortedClusterIds = allClusterIds.sort(
    (a, b) => clusterData.clusters[b].size - clusterData.clusters[a].size);
  const selectedClusterIds = sortedClusterIds.slice(0, clusterCount);
  const filteredClusters = {};
  selectedClusterIds.forEach((id) => {
    filteredClusters[id] = clusterData.clusters[id]; });
  return { ...clusterData, clusters: filteredClusters };
}, [clusterData, clusterCount]);
```
The key → value map is modelled as an association list; sorting the keys by
descending `size` and rebuilding the map is sorting the entries.  The
comparator `(a, b) => size[b] - size[a]` puts `a` before `b` exactly when
`size[b] ≤ size[a]`; `List.insertionSort` models `Array.prototype.sort`
(the properties proved are independent of tie-breaking).
-/

/-- The per-cluster value read by the filter (`size` is the field the
comparator reads; `embeddings` stands for the rest of the cluster object,
carried through unchanged). -/
structure ClusterEntry where
  size : ℚ
  embeddings : List (List ℚ)
deriving DecidableEq

/-- The cluster-info response object held in `clusterData` state. -/
structure ClusterData where
  job_id : Option String
  total_clusters : Option ℕ
  clusters : Option (List (String × ClusterEntry))
deriving DecidableEq

/-- Descending-size order on cluster entries: `a` sorts before `b` when
`size[b] ≤ size[a]`. -/
def sizeDesc (a b : String × ClusterEntry) : Prop :=
  b.2.size ≤ a.2.size

instance : DecidableRel sizeDesc :=
  fun a b => inferInstanceAs (Decidable (b.2.size ≤ a.2.size))

instance : IsTotal (String × ClusterEntry) sizeDesc :=
  ⟨fun a b => le_total b.2.size a.2.size⟩

instance : IsTrans (String × ClusterEntry) sizeDesc :=
  ⟨fun _ _ _ hab hbc => le_trans hbc hab⟩

/-- `getFilteredClusterData`, as a function of the `clusterData` state and
the `clusterCount` slider value. -/
def getFilteredClusterData (clusterData : Option ClusterData)
    (clusterCount : ℕ) : Option ClusterData :=
  match clusterData with
  | none => none
  | some cd =>
    match cd.clusters with
    | none => none
    | some cs =>
      some { cd with
        clusters := some ((List.insertionSort sizeDesc cs).take clusterCount) }

/-- C10: `getFilteredClusterData` returns `null` when the cluster data or
its `clusters` field is absent; otherwise it returns a copy of the object
(`job_id`, `total_clusters` preserved) whose `clusters` field holds exactly
`min n total` entries, each taken unchanged from the original map, and every
selected cluster's size is at least every unselected cluster's size. -/
theorem getFilteredClusterData_spec (cd : ClusterData) (n : ℕ) :
    getFilteredClusterData none n = none ∧
    (cd.clusters = none → getFilteredClusterData (some cd) n = none) ∧
    (∀ cs, cd.clusters = some cs →
      ∃ sel, getFilteredClusterData (some cd) n =
          some { cd with clusters := some sel } ∧
        sel.length = min n cs.length ∧
        (∀ e ∈ sel, e ∈ cs) ∧
        (∀ e ∈ sel, ∀ e2 ∈ cs, e2 ∉ sel → e2.2.size ≤ e.2.size)) := by
  refine ⟨rfl, ?_, ?_⟩
  · intro hnone
    simp [getFilteredClusterData, hnone]
  · intro cs hcs
    refine ⟨(List.insertionSort sizeDesc cs).take n, ?_, ?_, ?_, ?_⟩
    · simp [getFilteredClusterData, hcs]
    · rw [List.length_take, (List.perm_insertionSort sizeDesc cs).length_eq]
    · intro e he
      exact (List.perm_insertionSort sizeDesc cs).mem_iff.1
        (List.take_subset n _ he)
    · intro e he e2 he2 hnotsel
      have hsorted : List.Sorted sizeDesc (List.insertionSort sizeDesc cs) :=
        List.sorted_insertionSort sizeDesc cs
      have hsplit := List.take_append_drop n (List.insertionSort sizeDesc cs)
      have hpw : List.Pairwise sizeDesc
          ((List.insertionSort sizeDesc cs).take n ++
            (List.insertionSort sizeDesc cs).drop n) := by
        rw [hsplit]; exact hsorted
      have hdom := (List.pairwise_append.1 hpw).2.2
      have he2sort : e2 ∈ List.insertionSort sizeDesc cs :=
        (List.perm_insertionSort sizeDesc cs).mem_iff.2 he2
      have he2drop : e2 ∈ (List.insertionSort sizeDesc cs).drop n := by
        rcases List.mem_append.1 (by rw [hsplit]; exact he2sort) with h | h
        · exact absurd h hnotsel
        · exact h
      exact hdom e he e2 he2drop

/-- Witness for `getFilteredClusterData_spec`: two clusters of sizes 1 and
5, slider value 1. -/
theorem getFilteredClusterData_spec_witness :
    ∃ sel, getFilteredClusterData
        (some (ClusterData.mk (some "job-1") (some 2)
          (some [("cluster_0", ClusterEntry.mk 1 []),
                 ("cluster_1", ClusterEntry.mk 5 [])]))) 1 =
        some { ClusterData.mk (some "job-1") (some 2)
          (some [("cluster_0", ClusterEntry.mk 1 []),
                 ("cluster_1", ClusterEntry.mk 5 [])]) with
          clusters := some sel } ∧
      sel.length = min 1 ([("cluster_0", ClusterEntry.mk 1 []),
        ("cluster_1", ClusterEntry.mk 5 [])] :
          List (String × ClusterEntry)).length ∧
      (∀ e ∈ sel, e ∈ [("cluster_0", ClusterEntry.mk 1 []),
        ("cluster_1", ClusterEntry.mk 5 [])]) ∧
      (∀ e ∈ sel, ∀ e2 ∈ [("cluster_0", ClusterEntry.mk 1 []),
        ("cluster_1", ClusterEntry.mk 5 [])], e2 ∉ sel →
          e2.2.size ≤ e.2.size) :=
  (getFilteredClusterData_spec
    (ClusterData.mk (some "job-1") (some 2)
      (some [("cluster_0", ClusterEntry.mk 1 []),
             ("cluster_1", ClusterEntry.mk 5 [])])) 1).2.2
    [("cluster_0", ClusterEntry.mk 1 []), ("cluster_1", ClusterEntry.mk 5 [])]
    rfl

end Overseer
